import Mathlib

/-!
Verification of the three-tier item service (`backend/app.py`).

Shallow embedding of the Flask HTTP service in `backend/app.py`: a health
endpoint, a list-items endpoint and a create-item endpoint backed by a
MongoDB collection.  Request bodies and stored documents are modelled as
JSON values; the collection is the list of inserted documents.  The
storage-assigned internal identifier is never visible: `get_items` reads
with the projection excluding it, so documents are modelled without it.
-/

namespace ItemService

/-- JSON values as parsed by `request.get_json()`.  Numbers are modelled as
integers (no claim involves a fractional literal). -/
inductive Json where
  | null : Json
  | bool (b : Bool) : Json
  | num (n : Int) : Json
  | str (s : String) : Json
  | arr (elems : List Json) : Json
  | obj (fields : List (String × Json)) : Json

/-- Python truthiness of a parsed JSON value, as tested by `if not name:`.
`None`, `False`, `0`, `""`, `[]` and `{}` are falsy; everything else is
truthy. -/
def truthy : Json → Bool
  | .null => false
  | .bool b => b
  | .num n => n != 0
  | .str s => s != ""
  | .arr elems => !elems.isEmpty
  | .obj fields => !fields.isEmpty

/-- Python `dict.get(key)`: the value stored under `key`, or `None` when the key is
absent.  A JSON `null` value is returned as `some .null`; the handler's
truthiness test treats it the same as an absent key. -/
def objGet : List (String × Json) → String → Option Json
  | [], _ => none
  | (k, v) :: rest, key => if k = key then some v else objGet rest key

/-- An HTTP response body: either a JSON document produced by the handler,
or the framework-generated error page Flask emits for an unhandled
`HTTPException` / internal error (its body is not handler-controlled JSON). -/
inductive RespBody where
  | json (j : Json) : RespBody
  | frameworkError (code : Nat) : RespBody

/-- An HTTP response: status code and body. -/
structure Response where
  status : Nat
  body : RespBody

/-- The item collection: the list of documents inserted by `insert_one`,
in insertion order, without the storage-assigned internal identifier (every
read uses the projection `{"_id": 0}`). -/
abbrev Store := List Json

/-- The constant body `{"error": "name required"}`. -/
def errorBody : Json := Json.obj [("error", Json.str "name required")]

/-- Endpoint `GET /healthz` (`health` in `app.py`): returns the dict
`{"status": "ok"}`, which Flask serves with status 200.  The collection is
not touched. -/
def health (store : Store) : Store × Response :=
  (store, ⟨200, RespBody.json (Json.obj [("status", Json.str "ok")])⟩)

/-- Endpoint `GET /items` (`get_items` in `app.py`): `list(items.find({}, {"_id": 0}))`
returns every stored document with the internal identifier excluded, and
`jsonify` serves the list as a JSON array with status 200. -/
def get_items (store : Store) : Store × Response :=
  (store, ⟨200, RespBody.json (Json.arr store)⟩)

/-- Endpoint `POST /items` (`add_item` in `app.py`).  The argument `body` is the
request payload: `none` when it is not parseable JSON, in which case
`request.get_json()` raises `BadRequest` and Flask answers with its
framework 400 error page.  On a JSON object, `req.get("name")` is tested
for truthiness (`if not name:`, which also catches the `None` returned for
an absent key): falsy gives `({"error": "name required"}, 400)` before any
storage call.  On a truthy `name`, `items.insert_one(item)` persists
`{"name": name}` — and mutates the dict `item` in place, adding the
storage-assigned `ObjectId` under `"_id"` (documented pymongo behaviour:
the document is not copied).  The following `return item, 201` therefore
hands Flask a dict containing an `ObjectId`, which its JSON provider
cannot serialize: response creation raises `TypeError` and the framework
answers 500 — the document stays persisted.  On a parsed value that is not
a dict, `req.get` raises `AttributeError`, an unhandled internal error
(framework 500). -/
def add_item (store : Store) (body : Option Json) : Store × Response :=
  match body with
  | none => (store, ⟨400, RespBody.frameworkError 400⟩)
  | some req =>
    match req with
    | Json.obj fields =>
      match objGet fields "name" with
      | some name =>
        if truthy name then
          (store ++ [Json.obj [("name", name)]],
           ⟨500, RespBody.frameworkError 500⟩)
        else
          (store, ⟨400, RespBody.json errorBody⟩)
      | none => (store, ⟨400, RespBody.json errorBody⟩)
    | _ => (store, ⟨500, RespBody.frameworkError 500⟩)

/-- One inbound HTTP request to the service. -/
inductive Request where
  | healthz : Request
  | listItems : Request
  | createItem (body : Option Json) : Request

/-- Dispatch a request to its handler. -/
def step (store : Store) : Request → Store × Response
  | .healthz => health store
  | .listItems => get_items store
  | .createItem body => add_item store body

/-- Run a sequence of requests against the service, threading the store. -/
def runOps (store : Store) : List Request → Store
  | [] => store
  | r :: rs => runOps (step store r).1 rs

/-- The `name` field of a stored document (`none` for non-objects). -/
def itemName : Json → Option Json
  | .obj fields => objGet fields "name"
  | _ => none

/-- Every document in the store is exactly `{"name": v}` for a truthy `v`. -/
def storeInv (store : Store) : Prop :=
  ∀ j ∈ store, ∃ v, j = Json.obj [("name", v)] ∧ truthy v = true

/-- A single request preserves the store invariant: only `add_item`'s
truthy branch inserts, and it inserts exactly `{"name": name}`. -/
theorem step_preserves_inv (store : Store) (r : Request)
    (h : storeInv store) : storeInv (step store r).1 := by
  cases r with
  | healthz => exact h
  | listItems => exact h
  | createItem body =>
    cases body with
    | none => exact h
    | some req =>
      cases req with
      | obj fields =>
        simp only [step, add_item]
        rcases hg : objGet fields "name" with _ | name
        · exact h
        · by_cases ht : truthy name = true
          · simp only [ht, if_true]
            intro j hj
            rcases List.mem_append.mp hj with hj | hj
            · exact h j hj
            · exact ⟨name, by simpa using hj, ht⟩
          · simp only [ht, if_false]
            exact h
      | null => exact h
      | bool b => exact h
      | num n => exact h
      | str s => exact h
      | arr elems => exact h

/-- Any store reachable from an invariant-satisfying store satisfies the
invariant. -/
theorem runOps_preserves_inv (ops : List Request) :
    ∀ store : Store, storeInv store → storeInv (runOps store ops) := by
  induction ops with
  | nil => intro store h; exact h
  | cons r rs ih =>
    intro store h
    exact ih _ (step_preserves_inv store r h)

/-- Process environment: variable name to value, `none` when unset. -/
abbrev Env := String → Option String

/-- Whitespace as stripped by Python `int()`: space, tab, newline, carriage
return, vertical tab, form feed. -/
def pyIsSpace (c : Char) : Bool :=
  c = ' ' || c = '\t' || c = '\n' || c = '\r' || c = Char.ofNat 11 || c = Char.ofNat 12

/-- Strip leading and trailing whitespace from a character list. -/
def pyStrip (cs : List Char) : List Char :=
  ((cs.dropWhile pyIsSpace).reverse.dropWhile pyIsSpace).reverse

/-- The value of a non-empty all-digit character list, `none` otherwise. -/
def digitsVal (cs : List Char) : Option Nat :=
  if cs.isEmpty then none
  else if cs.all (fun c => c.isDigit) then
    some (cs.foldl (fun a c => 10 * a + (c.toNat - 48)) 0)
  else none

/-- Python `int(...)` applied to a string: optional surrounding whitespace,
an optional sign, then decimal digits; `none` when `int()` raises
`ValueError`. -/
def pythonInt (s : String) : Option Int :=
  match pyStrip s.toList with
  | [] => none
  | c :: rest =>
    if c = '-' then (digitsVal rest).map (fun n => -(n : Int))
    else if c = '+' then (digitsVal rest).map (fun n => (n : Int))
    else (digitsVal (c :: rest)).map (fun n => (n : Int))

/-- Line `MONGO_HOST = os.environ.get("MONGO_HOST", "mongo")`. -/
def mongoHost (env : Env) : String := (env "MONGO_HOST").getD "mongo"

/-- Line `MONGO_PORT = int(os.environ.get("MONGO_PORT", 27017))`: the
default is already the integer `27017`; a set value goes through `int()`,
and `none` records the `ValueError` that aborts the process on a
non-numeric value. -/
def mongoPort (env : Env) : Option Int :=
  match env "MONGO_PORT" with
  | none => some 27017
  | some s => pythonInt s

/-- Line `MONGO_DB = os.environ.get("MONGO_DB", "appdb")`. -/
def mongoDB (env : Env) : String := (env "MONGO_DB").getD "appdb"

/-- The storage connection: the client connection string
`f"mongodb://{MONGO_HOST}:{MONGO_PORT}/"` built for `MongoClient`, paired
with the database name selected by `client[MONGO_DB]`. -/
def mongoConnection (env : Env) : Option (String × String) :=
  (mongoPort env).map
    (fun p => ("mongodb://" ++ mongoHost env ++ ":" ++ toString p ++ "/", mongoDB env))

/-- A concrete environment setting all three recognized variables, used to
instantiate the configuration claim. -/
def envAllSet : Env := fun k =>
  if k = "MONGO_HOST" then some "db.local"
  else if k = "MONGO_PORT" then some "27018"
  else if k = "MONGO_DB" then some "mydb"
  else none

/-- Any store reachable from the empty store satisfies the invariant. -/
theorem reachable_inv (ops : List Request) : storeInv (runOps [] ops) :=
  runOps_preserves_inv ops [] (by intro j hj; cases hj)

/-- C1: the claim states the code's evident intent (`return item, 201`),
but the code is wrong: at the failing input `POST /items` with body
`{"name": "widget"}`, the document `{"name": "widget"}` is persisted, yet
`insert_one` has added an unserializable `ObjectId` to the returned dict,
so response serialization fails and the service answers a framework 500
rather than 201 with `{"name": "widget"}`. -/
theorem C1_post_valid_name_bug :
    add_item [] (some (Json.obj [("name", Json.str "widget")])) =
      ([Json.obj [("name", Json.str "widget")]],
       ⟨500, RespBody.frameworkError 500⟩) ∧
    (add_item [] (some (Json.obj [("name", Json.str "widget")]))).2.status ≠ 201 :=
  ⟨rfl, by decide⟩

/-- C2: a `POST /items` whose JSON object body has no `name` key, or maps
`name` to the empty string, answers 400 with `{"error": "name required"}`
and leaves the store unchanged. -/
theorem C2_post_missing_or_empty_name (store : Store)
    (fields : List (String × Json))
    (h : objGet fields "name" = none ∨
         objGet fields "name" = some (Json.str "")) :
    add_item store (some (Json.obj fields)) =
      (store, ⟨400, RespBody.json errorBody⟩) := by
  rcases h with h | h <;> simp [add_item, h, truthy]

/-- Witness for C2 at the body `{}` and the empty store. -/
theorem C2_post_missing_or_empty_name_witness :
    (objGet ([] : List (String × Json)) "name" = none ∨
     objGet ([] : List (String × Json)) "name" = some (Json.str "")) ∧
    add_item [] (some (Json.obj [])) = ([], ⟨400, RespBody.json errorBody⟩) :=
  ⟨Or.inl rfl, C2_post_missing_or_empty_name [] [] (Or.inl rfl)⟩

/-- C3 as stated is false: on an unparseable body, `request.get_json()`
raises `BadRequest`, so the status is 400 and nothing is persisted, but the
body is the framework error page, not `{"error": "name required"}`. -/
theorem C3_invalid_json_counterexample :
    (add_item [] none).2.status = 400 ∧
    (add_item [] none).1 = [] ∧
    (add_item [] none).2.body ≠ RespBody.json errorBody := by
  refine ⟨rfl, rfl, ?_⟩
  simp [add_item]

/-- C3 (amended): a `POST /items` whose body is not valid JSON answers 400
with the framework default error body — not the handler body
`{"error": "name required"}` — and no item is persisted. -/
theorem C3_invalid_json (store : Store) :
    add_item store none = (store, ⟨400, RespBody.frameworkError 400⟩) := rfl

/-- C4: `GET /items` answers 200 with the JSON array of all stored
documents; every document in a reachable store is an object holding just
the `name` field (the internal identifier never enters the model because
every read projects it away); on the empty store the body is `[]`. -/
theorem C4_get_items (ops : List Request) :
    get_items (runOps [] ops) =
      (runOps [] ops, ⟨200, RespBody.json (Json.arr (runOps [] ops))⟩) ∧
    (∀ j ∈ runOps [] ops, ∃ v, j = Json.obj [("name", v)]) ∧
    get_items [] = ([], ⟨200, RespBody.json (Json.arr [])⟩) := by
  refine ⟨rfl, ?_, rfl⟩
  intro j hj
  obtain ⟨v, hv, -⟩ := reachable_inv ops j hj
  exact ⟨v, hv⟩

/-- Witness for C4 after one successful create. -/
theorem C4_get_items_witness :
    Json.obj [("name", Json.str "widget")] ∈
      runOps [] [Request.createItem (some (Json.obj [("name", Json.str "widget")]))] ∧
    (∃ v, Json.obj [("name", Json.str "widget")] = Json.obj [("name", v)]) :=
  ⟨by simp [runOps, step, add_item, objGet, truthy],
   (C4_get_items [Request.createItem (some (Json.obj [("name", Json.str "widget")]))]).2.1 _
     (by simp [runOps, step, add_item, objGet, truthy])⟩

/-- C5: `GET /healthz` answers 200 with `{"status": "ok"}` in every storage
state and leaves the store untouched. -/
theorem C5_healthz (store : Store) :
    health store =
      (store, ⟨200, RespBody.json (Json.obj [("status", Json.str "ok")])⟩) :=
  rfl

/-- C6 as stated is false: the single request `POST /items` with body
`{"name": 5}` is accepted (5 is truthy), so the reached store holds an item
whose `name` is not a string at all. -/
theorem C6_invariant_counterexample :
    runOps [] [Request.createItem (some (Json.obj [("name", Json.num 5)]))] =
      [Json.obj [("name", Json.num 5)]] ∧
    ¬ ∃ s : String,
        itemName (Json.obj [("name", Json.num 5)]) = some (Json.str s) ∧
        s ≠ "" := by
  refine ⟨rfl, ?_⟩
  rintro ⟨s, hs, -⟩
  simp [itemName, objGet] at hs

/-- C6 (amended): starting from the empty store, after any sequence of the
three operations every stored item has a `name` field holding a truthy
value — in particular a string `name` is never empty. -/
theorem C6_invariant (ops : List Request) (j : Json)
    (hj : j ∈ runOps [] ops) :
    ∃ v, itemName j = some v ∧ truthy v = true := by
  obtain ⟨v, rfl, hv⟩ := reachable_inv ops j hj
  exact ⟨v, by simp [itemName, objGet], hv⟩

/-- Witness for C6 after one successful create. -/
theorem C6_invariant_witness :
    Json.obj [("name", Json.str "widget")] ∈
      runOps [] [Request.createItem (some (Json.obj [("name", Json.str "widget")]))] ∧
    (∃ v, itemName (Json.obj [("name", Json.str "widget")]) = some v ∧
          truthy v = true) :=
  ⟨by simp [runOps, step, add_item, objGet, truthy],
   C6_invariant [Request.createItem (some (Json.obj [("name", Json.str "widget")]))] _
     (by simp [runOps, step, add_item, objGet, truthy])⟩

/-- C7 as stated is false: from the empty store, `POST /items` with body
`{"name": "widget"}` does not return 201 — the mutated dict with its
`ObjectId` cannot be serialized and the response is a framework 500. -/
theorem C7_round_trip_counterexample :
    (add_item [] (some (Json.obj [("name", Json.str "widget")]))).2.status = 500 ∧
    (add_item [] (some (Json.obj [("name", Json.str "widget")]))).2.status ≠ 201 :=
  ⟨rfl, by decide⟩

/-- C7 (amended): from any store, `POST /items` with body
`{"name": "widget"}` persists `{"name": "widget"}` (though the response is
the framework 500 caused by the unserializable `ObjectId`, not 201), and
the following `GET /items` returns an array containing
`{"name": "widget"}`. -/
theorem C7_round_trip (store : Store) :
    (add_item store (some (Json.obj [("name", Json.str "widget")]))).1 =
      store ++ [Json.obj [("name", Json.str "widget")]] ∧
    ∃ elems,
      (get_items (add_item store (some (Json.obj [("name", Json.str "widget")]))).1).2.body =
        RespBody.json (Json.arr elems) ∧
      Json.obj [("name", Json.str "widget")] ∈ elems := by
  refine ⟨by simp [add_item, objGet, truthy], ?_⟩
  refine ⟨store ++ [Json.obj [("name", Json.str "widget")]], ?_, by simp⟩
  simp [add_item, objGet, truthy, get_items]

/-- C8: two consecutive `GET /items` with no intervening write return the
same response, and neither changes the store. -/
theorem C8_get_idempotent (store : Store) :
    (get_items (get_items store).1).2 = (get_items store).2 ∧
    (get_items store).1 = store ∧
    (get_items (get_items store).1).1 = store :=
  ⟨rfl, rfl, rfl⟩

/-- C9: with the three variables unset the connection is built with host
`mongo`, port 27017 and database `appdb`; with all three set (and a port
value `int()` accepts) the provided values are used instead. -/
theorem C9_config_defaults (env : Env)
    (hh : env "MONGO_HOST" = none) (hp : env "MONGO_PORT" = none)
    (hd : env "MONGO_DB" = none)
    (env2 : Env) (h p d : String) (n : Int)
    (hh2 : env2 "MONGO_HOST" = some h) (hp2 : env2 "MONGO_PORT" = some p)
    (hd2 : env2 "MONGO_DB" = some d) (hn : pythonInt p = some n) :
    mongoHost env = "mongo" ∧ mongoPort env = some 27017 ∧
    mongoDB env = "appdb" ∧
    mongoHost env2 = h ∧ mongoPort env2 = some n ∧ mongoDB env2 = d := by
  simp [mongoHost, mongoPort, mongoDB, hh, hp, hd, hh2, hp2, hd2, hn]

/-- Witness for C9: the empty environment and one setting all three
variables. -/
theorem C9_config_defaults_witness :
    ((fun _ : String => (none : Option String)) "MONGO_HOST" = none) ∧
    pythonInt "27018" = some 27018 ∧
    mongoHost (fun _ => none) = "mongo" ∧
    mongoPort (fun _ => none) = some 27017 ∧
    mongoDB (fun _ => none) = "appdb" ∧
    mongoHost envAllSet = "db.local" ∧
    mongoPort envAllSet = some 27018 ∧
    mongoDB envAllSet = "mydb" := by
  have h := C9_config_defaults (fun _ => none) rfl rfl rfl envAllSet
    "db.local" "27018" "mydb" 27018 rfl rfl rfl (by decide)
  exact ⟨rfl, by decide, h.1, h.2.1, h.2.2.1, h.2.2.2.1, h.2.2.2.2.1, h.2.2.2.2.2⟩

/-- C10 as stated is false in its 201 component: at the truthy non-string
body `{"name": 5}`, the item `{"name": 5}` is persisted but the response is
the framework 500 from the unserializable `ObjectId`, not 201. -/
theorem C10_truthiness_check_counterexample :
    (add_item [] (some (Json.obj [("name", Json.num 5)]))).1 =
      [Json.obj [("name", Json.num 5)]] ∧
    (add_item [] (some (Json.obj [("name", Json.num 5)]))).2.status ≠ 201 :=
  ⟨rfl, by decide⟩

/-- C10 (amended): the presence check is Python truthiness on an arbitrary
JSON value: the six falsy JSON values are rejected with 400 and
`{"error": "name required"}`, while any truthy `name` value — string or
not — is persisted as `{"name": <value>}`, after which the response fails
to serialize and the service answers a framework 500 (not 201). -/
theorem C10_truthiness_check (store : Store) (fields : List (String × Json))
    (v : Json) (hv : objGet fields "name" = some v) :
    (truthy Json.null = false ∧ truthy (Json.bool false) = false ∧
     truthy (Json.num 0) = false ∧ truthy (Json.str "") = false ∧
     truthy (Json.arr []) = false ∧ truthy (Json.obj []) = false) ∧
    (truthy v = false →
      add_item store (some (Json.obj fields)) =
        (store, ⟨400, RespBody.json errorBody⟩)) ∧
    (truthy v = true →
      add_item store (some (Json.obj fields)) =
        (store ++ [Json.obj [("name", v)]],
         ⟨500, RespBody.frameworkError 500⟩)) := by
  refine ⟨by decide, ?_, ?_⟩ <;> intro ht <;> simp [add_item, hv, ht]

/-- Witness for C10 at the non-string truthy body `{"name": 5}`. -/
theorem C10_truthiness_check_witness :
    objGet [("name", Json.num 5)] "name" = some (Json.num 5) ∧
    truthy (Json.num 5) = true ∧
    add_item [] (some (Json.obj [("name", Json.num 5)])) =
      ([Json.obj [("name", Json.num 5)]],
       ⟨500, RespBody.frameworkError 500⟩) :=
  ⟨rfl, by decide,
   (C10_truthiness_check [] [("name", Json.num 5)] (Json.num 5) rfl).2.2 (by decide)⟩

end ItemService
